import Mathlib

/-!
# Verification of the MUN session state engine (`src/app.py`)

Shallow embedding of the session state engine: the document stream
(`mun_documents`), the single-active-vote state
(`current_vote_target_id`, `current_vote_tally`, `vote_timer_thread`),
and the socket handlers `handle_mun_submission`, `handle_moderator_action`,
together with `finalize_current_vote` and the fired body of
`auto_finalize_vote`.

Modelling conventions:
* Python `None`-able strings become `Option String`; Python's f-string
  rendering of `None` is `pyStr`.
* Python truthiness of the optional id `current_vote_target_id`
  (`None` and `""` are falsy) is modelled by explicit `none` / `== ""` tests
  exactly where the source tests truthiness.
* `uuid.uuid4()` and `datetime.now()` are external nondeterminism: each
  operation that creates a document takes the fresh id and timestamp as
  explicit arguments.
* The greenlet handle `vote_timer_thread` is modelled as a `Bool`
  (a live handle is held or not); `eventlet.kill` sets it to `false`.
* Socket output is modelled as an explicit list of `Emit` events, in source
  order; `emit(...)` inside a handler goes to the caller only, while
  `socketio.emit(...)` / `broadcast=True` reaches every client.
-/

/-- `ADMIN_USER` from the source. -/
def ADMIN_USER : String := "ADMIN"

/-- `VALID_DELEGATES` from the source. -/
def VALID_DELEGATES : List String :=
  ["UK", "FRANCE", "USA", "CHINA", "RUSSIA", "GERMANY", "INDIA"]

/-- `VOTE_DURATION_SECONDS` from the source. -/
def VOTE_DURATION_SECONDS : Nat := 30

/-- Python f-string rendering of an optional string (`None` prints as "None"). -/
def pyStr : Option String → String
  | none => "None"
  | some s => s

/-- One document dict of `mun_documents`.  `title`/`content` are `Option`
because `data.get('title')` / `data.get('content')` may be `None` and the
source stores them unchecked. -/
structure Doc where
  id : String
  type : String
  title : Option String
  content : Option String
  delegate : String
  timestamp : String
  deriving DecidableEq, Repr

/-- The dict `current_vote_tally`: per-choice counters plus the `voters` set. -/
structure Tally where
  yay : Nat
  nay : Nat
  abstain : Nat
  voters : Finset String
  deriving DecidableEq

/-- The reset value `{'yay': 0, 'nay': 0, 'abstain': 0, 'voters': set()}`. -/
def emptyTally : Tally := { yay := 0, nay := 0, abstain := 0, voters := ∅ }

/-- `current_vote_tally[vote] += 1` for a choice string. -/
def Tally.bump (t : Tally) (vote : String) : Tally :=
  if vote = "yay" then { t with yay := t.yay + 1 }
  else if vote = "nay" then { t with nay := t.nay + 1 }
  else if vote = "abstain" then { t with abstain := t.abstain + 1 }
  else t

/-- The global mutable state of the app. -/
structure AppState where
  mun_documents : List Doc
  current_vote_tally : Tally
  current_vote_target_id : Option String
  vote_timer_thread : Bool
  deriving DecidableEq

/-- `get_document_by_id`: first document whose `id` equals the given
(optional) id; `None` matches no stored id. -/
def get_document_by_id (docs : List Doc) (doc_id : Option String) : Option Doc :=
  docs.find? (fun doc => some doc.id == doc_id)

/-- `result = 'PASSED' if yay > nay else 'FAILED'` (line 163 of the source). -/
def resultOf (yay nay : Nat) : String :=
  if yay > nay then "PASSED" else "FAILED"

/-- The `result_content` f-string built by `finalize_current_vote`
(lines 166-174 of the source), as explicit concatenation. -/
def result_content (target_title : String) (yay nay abstain : Nat) : String :=
  let total_votes := yay + nay + abstain
  let result := resultOf yay nay
  "VOTE ON: " ++ target_title ++ "\n" ++
  "--- FINAL RESULT (" ++ "Auto-Closed after " ++ toString VOTE_DURATION_SECONDS ++ "s" ++ ") ---\n" ++
  "Result: " ++ result ++ " (" ++ (if result = "PASSED" then "Passed" else "Failed") ++ " by simple majority)\n\n" ++
  "Yay Votes: " ++ toString yay ++ "\n" ++
  "Nay Votes: " ++ toString nay ++ "\n" ++
  "Abstain Votes: " ++ toString abstain ++ "\n" ++
  "Total Votes Cast: " ++ toString total_votes ++ "\n"

/-- The `vote_result` document dict built by `finalize_current_vote`. -/
def vote_result_doc (freshId freshTs target_title : String) (t : Tally) : Doc :=
  { id := freshId
    type := "vote_result"
    title := some ("VOTE RESULT: " ++ target_title)
    content := some (result_content target_title t.yay t.nay t.abstain)
    delegate := "CHAIRMAN"
    timestamp := freshTs }

/-- The payload of the `vote_tally_update` broadcast (source lines 375-383):
after the modification noted in the source, the per-choice counts are gone and
only the target identification and aggregate counts remain. -/
structure TallyPayload where
  target_id : String
  target_title : Option String
  voter_count : Nat
  total_delegates : Nat
  deriving DecidableEq

/-- One socket emission.  `...Caller` constructors model `emit(...)` inside a
handler (delivered to the requesting client only); the others model
`socketio.emit(...)` / `broadcast=True` (delivered to every client). -/
inductive Emit where
  | feedbackCaller (message : String)
  | feedbackAll (message : String)
  | streamUpdate
  | voteStartedAll (target : Option String)
  | voteEnded
  | voteTallyUpdate (payload : TallyPayload)
  | adminStateUpdateCaller
  | adminStateUpdateAll
  deriving DecidableEq

/-- Whether an emission reaches clients other than the caller. -/
def Emit.isBroadcast : Emit → Bool
  | .feedbackCaller _ => false
  | .adminStateUpdateCaller => false
  | _ => true

/-- The `vote_tally_update` payloads among a list of emissions. -/
def tallyPayloads (es : List Emit) : List TallyPayload :=
  es.filterMap (fun e => match e with
    | .voteTallyUpdate p => some p
    | _ => none)

/-- `finalize_current_vote` (source lines 141-199).  When no target id is set
(or it is falsy, or the target document is gone) it only logs a warning and
returns; otherwise it appends one `vote_result` document, resets the vote
state, and emits the stream update / vote-ended / feedback events. -/
def finalize_current_vote (freshId freshTs : String) (s : AppState) :
    AppState × List Emit :=
  match s.current_vote_target_id, get_document_by_id s.mun_documents s.current_vote_target_id with
  | some tid, some target_doc =>
    if tid = "" then (s, [])
    else
      let target_title := pyStr target_doc.title
      let new_doc := vote_result_doc freshId freshTs target_title s.current_vote_tally
      let s2 : AppState :=
        { s with
          mun_documents := s.mun_documents ++ [new_doc]
          current_vote_target_id := none
          current_vote_tally := emptyTally
          vote_timer_thread := false }
      (s2,
        [Emit.streamUpdate, Emit.voteEnded,
         Emit.feedbackAll ("Vote on \"" ++ ("VOTE RESULT: " ++ target_title) ++ "\" finalized automatically."),
         Emit.adminStateUpdateAll])
  | _, _ => (s, [])

/-- The body of `auto_finalize_vote` after the sleep expires (source lines
133-138): finalize only if a vote target is still (truthily) set. -/
def auto_finalize_vote (freshId freshTs : String) (s : AppState) :
    AppState × List Emit :=
  match s.current_vote_target_id with
  | some tid => if tid = "" then (s, []) else finalize_current_vote freshId freshTs s
  | none => (s, [])

/-- The `data` dict of a `mun_submission` event (`data.get(...)` fields). -/
structure SData where
  type : Option String
  vote : Option String
  title : Option String
  content : Option String
  deriving DecidableEq

/-- The `data` dict of a `moderator_action` event. -/
structure MData where
  action : Option String
  target_id : Option String
  content : Option String
  deriving DecidableEq

/-- The authentication guard of `handle_mun_submission` (source line 350) for a
present user id: `not delegate_id or delegate_id not in VALID_DELEGATES and
delegate_id != ADMIN_USER` with Python precedence. -/
def authRejects (delegate_id : String) : Bool :=
  delegate_id == "" || (!(VALID_DELEGATES.contains delegate_id) && delegate_id != ADMIN_USER)

/-- `handle_mun_submission` (source lines 342-408).  `sess_user` is
`session.get('user')`; `freshId`/`freshTs` stand for `uuid.uuid4()` /
`datetime.now()` in the document branch. -/
def handle_mun_submission (sess_user : Option String) (data : SData)
    (freshId freshTs : String) (s : AppState) : AppState × List Emit :=
  match sess_user with
  | none => (s, [Emit.feedbackCaller "Authentication error."])
  | some delegate_id =>
    if authRejects delegate_id then
      (s, [Emit.feedbackCaller "Authentication error."])
    else if data.type == some "vote" then
      match s.current_vote_target_id, get_document_by_id s.mun_documents s.current_vote_target_id with
      | some tid, some target_doc =>
        if tid = "" then
          (s, [Emit.feedbackCaller "No formal vote is currently active."])
        else if delegate_id ∈ s.current_vote_tally.voters then
          (s, [Emit.feedbackCaller "You have already cast your vote."])
        else if data.vote == some "yay" || data.vote == some "nay" || data.vote == some "abstain" then
          let v := data.vote.getD ""
          let t2 := (s.current_vote_tally.bump v)
          let t3 := { t2 with voters := insert delegate_id t2.voters }
          let s2 := { s with current_vote_tally := t3 }
          (s2,
            [Emit.feedbackCaller ("Vote recorded: " ++ v.toUpper ++ " on " ++ pyStr target_doc.title),
             Emit.voteTallyUpdate
               { target_id := tid
                 target_title := target_doc.title
                 voter_count := t3.voters.card
                 total_delegates := VALID_DELEGATES.length }])
        else (s, [])
      | _, _ => (s, [Emit.feedbackCaller "No formal vote is currently active."])
    else if data.type == some "resolution" || data.type == some "amendment" then
      let new_doc : Doc :=
        { id := freshId
          type := data.type.getD ""
          title := data.title
          content := data.content
          delegate := delegate_id
          timestamp := freshTs }
      ({ s with mun_documents := s.mun_documents ++ [new_doc] },
        [Emit.feedbackCaller ((data.type.getD "").capitalize ++ " \"" ++ pyStr data.title ++ "\" submitted."),
         Emit.streamUpdate])
    else
      (s, [Emit.feedbackCaller "Invalid submission type."])

/-- `handle_moderator_action` (source lines 411-512). -/
def handle_moderator_action (sess_role : Option String) (data : MData)
    (freshId freshTs : String) (s : AppState) : AppState × List Emit :=
  if sess_role != some "admin" then
    (s, [Emit.feedbackCaller "Unauthorized action."])
  else if data.action == some "start_vote" then
    match get_document_by_id s.mun_documents data.target_id with
    | none => (s, [Emit.feedbackCaller "Invalid document ID or document type for voting."])
    | some target_doc =>
      if !(target_doc.type == "resolution" || target_doc.type == "amendment") then
        (s, [Emit.feedbackCaller "Invalid document ID or document type for voting."])
      else if (match s.current_vote_target_id with
               | some tid => tid != ""
               | none => false) then
        (s, [Emit.feedbackCaller "Cannot start a new vote; one is already active."])
      else
        let target_title := pyStr target_doc.title
        let new_doc : Doc :=
          { id := freshId
            type := "moderator_announcement"
            title := some "VOTE STARTED"
            content := some ("A formal vote is now open on the **" ++ target_doc.type.toUpper ++ "**: "
              ++ target_title ++ ". All delegates must cast their vote (YAY/NAY/ABSTAIN). The vote will close automatically in "
              ++ toString VOTE_DURATION_SECONDS ++ " seconds.")
            delegate := "CHAIRMAN"
            timestamp := freshTs }
        ({ s with
            current_vote_target_id := data.target_id
            current_vote_tally := emptyTally
            vote_timer_thread := true
            mun_documents := s.mun_documents ++ [new_doc] },
          [Emit.voteStartedAll target_doc.title,
           Emit.feedbackCaller ("Formal vote on \"" ++ target_title ++ "\" started. Auto-closing in "
             ++ toString VOTE_DURATION_SECONDS ++ " seconds."),
           Emit.streamUpdate])
  else if data.action == some "finalize_vote" then
    match s.current_vote_target_id with
    | none => (s, [Emit.feedbackCaller "No vote is currently active to finalize."])
    | some tid =>
      if tid = "" then (s, [Emit.feedbackCaller "No vote is currently active to finalize."])
      else
        let s1 := if s.vote_timer_thread then { s with vote_timer_thread := false } else s
        let r := finalize_current_vote freshId freshTs s1
        (r.1, r.2 ++ [Emit.feedbackCaller "Vote finalized and published.", Emit.adminStateUpdateCaller])
  else if data.action == some "clear_stream" then
    let s1 := if s.vote_timer_thread then { s with vote_timer_thread := false } else s
    ({ s1 with
        mun_documents := []
        current_vote_target_id := none
        current_vote_tally := emptyTally },
      [Emit.voteEnded, Emit.streamUpdate,
       Emit.feedbackCaller "Document stream cleared.", Emit.adminStateUpdateCaller])
  else if data.action == some "announce" then
    let announcement_content := data.content.getD "Chairman made an announcement."
    let new_doc : Doc :=
      { id := freshId
        type := "moderator_announcement"
        title := some "CHAIRMAN ANNOUNCEMENT"
        content := some announcement_content
        delegate := "CHAIRMAN"
        timestamp := freshTs }
    ({ s with mun_documents := s.mun_documents ++ [new_doc] },
      [Emit.streamUpdate, Emit.feedbackCaller "Announcement posted to the stream."])
  else
    (s, [])

/-- Number of `vote_result` entries in the stream. -/
def countVoteResults (docs : List Doc) : Nat :=
  (docs.filter (fun d => d.type == "vote_result")).length

/-- The vote-state invariant of the claim: per-choice counts sum to the number
of recorded voters (each voter recorded at most once, by the set
representation), and the total never exceeds the eligible roster size. -/
def tallyOk (t : Tally) : Prop :=
  t.yay + t.nay + t.abstain = t.voters.card ∧
  t.voters.card ≤ VALID_DELEGATES.length

/-- The invariant the code actually maintains: the counts sum to the number of
recorded voters, and every recorded voter is either a roster member or the
moderator account `ADMIN_USER` (which the ballot guard also lets through), so
the total is bounded by `len(VALID_DELEGATES) + 1`. -/
def tallyOkAmended (t : Tally) : Prop :=
  t.yay + t.nay + t.abstain = t.voters.card ∧
  t.voters ⊆ insert ADMIN_USER VALID_DELEGATES.toFinset ∧
  t.voters.card ≤ VALID_DELEGATES.length + 1

/-- `isStartOf needle hay`: `needle` is an initial run of `hay`. -/
def isStartOf : List Char → List Char → Bool
  | [], _ => true
  | _ :: _, [] => false
  | a :: as, b :: bs => a == b && isStartOf as bs

/-- `occursIn needle hay`: `needle` occurs contiguously inside `hay`. -/
def occursIn (needle : List Char) : List Char → Bool
  | [] => isStartOf needle []
  | b :: bs => isStartOf needle (b :: bs) || occursIn needle bs

/-- Substring test on strings. -/
def containsStr (s sub : String) : Bool :=
  occursIn sub.data s.data

/-- A concrete resolution document used as vote target in the test states. -/
def res1 : Doc :=
  { id := "R1"
    type := "resolution"
    title := some "Test Res"
    content := some "Body"
    delegate := "UK"
    timestamp := "t0" }

/-- A concrete active-vote state with no ballots cast yet. -/
def s0c : AppState :=
  { mun_documents := [res1]
    current_vote_tally := emptyTally
    current_vote_target_id := some "R1"
    vote_timer_thread := true }

/-- A concrete active-vote state in which the entire roster has voted yay. -/
def s_full : AppState :=
  { mun_documents := [res1]
    current_vote_tally :=
      { yay := 7, nay := 0, abstain := 0, voters := VALID_DELEGATES.toFinset }
    current_vote_target_id := some "R1"
    vote_timer_thread := true }

/-- A concrete idle state. -/
def s_idle : AppState :=
  { mun_documents := [res1]
    current_vote_tally := emptyTally
    current_vote_target_id := none
    vote_timer_thread := false }

/-- The `moderator_action` payload for a manual finalize. -/
def finalizeData : MData := { action := some "finalize_vote", target_id := none, content := none }

/-- A `mun_submission` payload casting the given choice. -/
def voteData (v : String) : SData :=
  { type := some "vote", vote := some v, title := none, content := none }

instance (t : Tally) : Decidable (tallyOk t) := by
  unfold tallyOk; infer_instance

instance (t : Tally) : Decidable (tallyOkAmended t) := by
  unfold tallyOkAmended; infer_instance

/- ------------------------------------------------------------------ -/
/- Helper lemmas                                                       -/
/- ------------------------------------------------------------------ -/

/-- `Tally.bump` never touches the voter set. -/
theorem Tally.bump_voters (t : Tally) (v : String) : (t.bump v).voters = t.voters := by
  unfold Tally.bump
  split <;> try rfl
  split <;> try rfl
  split <;> rfl

/-- Characterization of `finalize_current_vote` on an active state whose
target document exists: exactly one `vote_result` document is appended and the
vote state is reset. -/
theorem finalize_current_vote_active (s : AppState) (freshId freshTs tid : String) (td : Doc)
    (htid : s.current_vote_target_id = some tid) (hne : tid ≠ "")
    (hdoc : get_document_by_id s.mun_documents (some tid) = some td) :
    finalize_current_vote freshId freshTs s =
      ({ s with
          mun_documents := s.mun_documents ++
            [vote_result_doc freshId freshTs (pyStr td.title) s.current_vote_tally]
          current_vote_target_id := none
          current_vote_tally := emptyTally
          vote_timer_thread := false },
        [Emit.streamUpdate, Emit.voteEnded,
         Emit.feedbackAll ("Vote on \"" ++ ("VOTE RESULT: " ++ pyStr td.title) ++ "\" finalized automatically."),
         Emit.adminStateUpdateAll]) := by
  unfold finalize_current_vote
  rw [htid, hdoc]
  simp [hne]

/-- `finalize_current_vote` on an idle state changes nothing and emits
nothing. -/
theorem finalize_current_vote_idle (s : AppState) (freshId freshTs : String)
    (h : s.current_vote_target_id = none) :
    finalize_current_vote freshId freshTs s = (s, []) := by
  unfold finalize_current_vote
  rw [h]

/-- The timer callback on an idle state changes nothing and emits nothing. -/
theorem auto_finalize_vote_idle (s : AppState) (freshId freshTs : String)
    (h : s.current_vote_target_id = none) :
    auto_finalize_vote freshId freshTs s = (s, []) := by
  unfold auto_finalize_vote
  rw [h]

/-- The timer callback on an active state runs `finalize_current_vote`. -/
theorem auto_finalize_vote_active (s : AppState) (freshId freshTs tid : String)
    (htid : s.current_vote_target_id = some tid) (hne : tid ≠ "") :
    auto_finalize_vote freshId freshTs s = finalize_current_vote freshId freshTs s := by
  unfold auto_finalize_vote
  rw [htid]
  simp [hne]

/-- A manual `finalize_vote` moderator action on an idle state is rejected
with the no-active-vote feedback and changes nothing. -/
theorem moderator_finalize_idle (s : AppState) (freshId freshTs : String)
    (h : s.current_vote_target_id = none) :
    handle_moderator_action (some "admin") finalizeData freshId freshTs s =
      (s, [Emit.feedbackCaller "No vote is currently active to finalize."]) := by
  unfold handle_moderator_action finalizeData
  rw [h]
  simp


/-- A manual `finalize_vote` moderator action on an active state whose target
document exists: the timer handle is dropped, one `vote_result` document is
appended, the vote state is reset, and the finalize emissions are followed by
the handler's own feedback. -/
theorem moderator_finalize_active (s : AppState) (freshId freshTs tid : String) (td : Doc)
    (htid : s.current_vote_target_id = some tid) (hne : tid ≠ "")
    (hdoc : get_document_by_id s.mun_documents (some tid) = some td) :
    handle_moderator_action (some "admin") finalizeData freshId freshTs s =
      ({ s with
          mun_documents := s.mun_documents ++
            [vote_result_doc freshId freshTs (pyStr td.title) s.current_vote_tally]
          current_vote_target_id := none
          current_vote_tally := emptyTally
          vote_timer_thread := false },
        [Emit.streamUpdate, Emit.voteEnded,
         Emit.feedbackAll ("Vote on \"" ++ ("VOTE RESULT: " ++ pyStr td.title) ++ "\" finalized automatically."),
         Emit.adminStateUpdateAll,
         Emit.feedbackCaller "Vote finalized and published.", Emit.adminStateUpdateCaller]) := by
  unfold handle_moderator_action finalizeData
  rw [htid]
  by_cases hb : s.vote_timer_thread
  · simp only [hb]
    simp [hne]
    rw [finalize_current_vote_active
      { mun_documents := s.mun_documents, current_vote_tally := s.current_vote_tally,
        current_vote_target_id := some tid, vote_timer_thread := false }
      freshId freshTs tid td rfl hne hdoc]
    exact ⟨rfl, rfl⟩
  · simp only [hb]
    simp [hne]
    rw [finalize_current_vote_active s freshId freshTs tid td htid hne hdoc]
    exact ⟨rfl, rfl⟩

/-- A successful ballot cast: the chosen counter is bumped, the voter is
recorded, and the caller feedback plus the aggregate tally broadcast are
emitted. -/
theorem cast_ballot_success (s : AppState) (d v tid freshId freshTs : String) (td : Doc)
    (hauth : authRejects d = false)
    (htid : s.current_vote_target_id = some tid) (hne : tid ≠ "")
    (hdoc : get_document_by_id s.mun_documents (some tid) = some td)
    (hnv : d ∉ s.current_vote_tally.voters)
    (hv : v = "yay" ∨ v = "nay" ∨ v = "abstain") :
    handle_mun_submission (some d) (voteData v) freshId freshTs s =
      ({ s with current_vote_tally :=
          { s.current_vote_tally.bump v with
              voters := insert d s.current_vote_tally.voters } },
        [Emit.feedbackCaller ("Vote recorded: " ++ v.toUpper ++ " on " ++ pyStr td.title),
         Emit.voteTallyUpdate
           { target_id := tid
             target_title := td.title
             voter_count := (insert d s.current_vote_tally.voters).card
             total_delegates := VALID_DELEGATES.length }]) := by
  unfold handle_mun_submission voteData
  rw [htid, hdoc]
  have hvv : ((some v : Option String) == some "yay" || (some v : Option String) == some "nay"
      || (some v : Option String) == some "abstain") = true := by
    rcases hv with h | h | h <;> simp [h]
  simp [hauth, hne, hnv, hvv, Tally.bump_voters]
  tauto

/-- A repeated ballot cast by a voter already recorded fails with the
already-voted feedback and changes nothing. -/
theorem cast_ballot_already_voted (s : AppState) (d tid freshId freshTs : String) (td : Doc)
    (dat : SData)
    (hauth : authRejects d = false) (hty : dat.type = some "vote")
    (htid : s.current_vote_target_id = some tid) (hne : tid ≠ "")
    (hdoc : get_document_by_id s.mun_documents (some tid) = some td)
    (hv : d ∈ s.current_vote_tally.voters) :
    handle_mun_submission (some d) dat freshId freshTs s =
      (s, [Emit.feedbackCaller "You have already cast your vote."]) := by
  unfold handle_mun_submission
  rw [hty, htid, hdoc]
  simp [hauth, hne, hv]

/-- A ballot cast while no vote is active fails with the no-active-vote
feedback and changes nothing. -/
theorem cast_ballot_no_active (s : AppState) (d freshId freshTs : String) (dat : SData)
    (hauth : authRejects d = false) (hty : dat.type = some "vote")
    (htid : s.current_vote_target_id = none) :
    handle_mun_submission (some d) dat freshId freshTs s =
      (s, [Emit.feedbackCaller "No formal vote is currently active."]) := by
  unfold handle_mun_submission
  rw [hty, htid]
  simp [hauth, get_document_by_id]

/-- A ballot cast with a choice outside the allowed set is silently dropped:
no state change and no emission at all. -/
theorem cast_ballot_invalid_choice (s : AppState) (d tid freshId freshTs : String) (td : Doc)
    (dat : SData)
    (hauth : authRejects d = false) (hty : dat.type = some "vote")
    (htid : s.current_vote_target_id = some tid) (hne : tid ≠ "")
    (hdoc : get_document_by_id s.mun_documents (some tid) = some td)
    (hnv : d ∉ s.current_vote_tally.voters)
    (hv : dat.vote ≠ some "yay") (hv2 : dat.vote ≠ some "nay") (hv3 : dat.vote ≠ some "abstain") :
    handle_mun_submission (some d) dat freshId freshTs s = (s, []) := by
  unfold handle_mun_submission
  rw [hty, htid, hdoc]
  simp [hauth, hne, hnv, hv, hv2, hv3]

/-- Appending one `vote_result` document raises the result count by one. -/
theorem countVoteResults_append_result (docs : List Doc) (fid fts tt : String) (t : Tally) :
    countVoteResults (docs ++ [vote_result_doc fid fts tt t]) = countVoteResults docs + 1 := by
  unfold countVoteResults vote_result_doc
  simp [List.filter_append]

/-- C1: exactly one `vote_result` ledger entry is appended per vote
lifecycle.  On an idle state (`current_vote_target_id` unset) a finalize is a
no-op failure: the manual moderator path emits only the no-active-vote
feedback and appends nothing, and the timer path appends and emits nothing.
On an active state whose target document exists, each finalize path appends
exactly one `vote_result` entry and returns the state to idle, so a second
finalize from either path (the manual/timer race) appends nothing further:
never zero, never two. -/
theorem C1_exactly_one_vote_result (s : AppState) (f1 t1 f2 t2 tid : String) (td : Doc) :
    (s.current_vote_target_id = none →
      handle_moderator_action (some "admin") finalizeData f1 t1 s
        = (s, [Emit.feedbackCaller "No vote is currently active to finalize."]) ∧
      auto_finalize_vote f1 t1 s = (s, [])) ∧
    (s.current_vote_target_id = some tid → tid ≠ "" →
      get_document_by_id s.mun_documents (some tid) = some td →
      (countVoteResults (handle_moderator_action (some "admin") finalizeData f1 t1 s).1.mun_documents
          = countVoteResults s.mun_documents + 1 ∧
        (handle_moderator_action (some "admin") finalizeData f1 t1 s).1.current_vote_target_id = none ∧
        countVoteResults (auto_finalize_vote f2 t2
            (handle_moderator_action (some "admin") finalizeData f1 t1 s).1).1.mun_documents
          = countVoteResults s.mun_documents + 1 ∧
        countVoteResults (handle_moderator_action (some "admin") finalizeData f2 t2
            (handle_moderator_action (some "admin") finalizeData f1 t1 s).1).1.mun_documents
          = countVoteResults s.mun_documents + 1) ∧
      (countVoteResults (auto_finalize_vote f1 t1 s).1.mun_documents
          = countVoteResults s.mun_documents + 1 ∧
        (auto_finalize_vote f1 t1 s).1.current_vote_target_id = none ∧
        countVoteResults (handle_moderator_action (some "admin") finalizeData f2 t2
            (auto_finalize_vote f1 t1 s).1).1.mun_documents
          = countVoteResults s.mun_documents + 1 ∧
        countVoteResults (auto_finalize_vote f2 t2
            (auto_finalize_vote f1 t1 s).1).1.mun_documents
          = countVoteResults s.mun_documents + 1)) := by
  constructor
  · intro h
    exact ⟨moderator_finalize_idle s f1 t1 h, auto_finalize_vote_idle s f1 t1 h⟩
  · intro htid hne hdoc
    have hm := moderator_finalize_active s f1 t1 tid td htid hne hdoc
    have ha := auto_finalize_vote_active s f1 t1 tid htid hne
    have hf := finalize_current_vote_active s f1 t1 tid td htid hne hdoc
    refine ⟨⟨?_, ?_, ?_, ?_⟩, ?_, ?_, ?_, ?_⟩
    · rw [hm]; exact countVoteResults_append_result _ _ _ _ _
    · rw [hm]
    · rw [hm, auto_finalize_vote_idle _ f2 t2 rfl]
      exact countVoteResults_append_result _ _ _ _ _
    · rw [hm, moderator_finalize_idle _ f2 t2 rfl]
      exact countVoteResults_append_result _ _ _ _ _
    · rw [ha, hf]; exact countVoteResults_append_result _ _ _ _ _
    · rw [ha, hf]
    · rw [ha, hf, moderator_finalize_idle _ f2 t2 rfl]
      exact countVoteResults_append_result _ _ _ _ _
    · rw [ha, hf, auto_finalize_vote_idle _ f2 t2 rfl]
      exact countVoteResults_append_result _ _ _ _ _

/-- C2_witness helper facts are discharged at `s0c3`, defined later.
C2: for every finalize of an active vote, the published entry is the
`vote_result` document whose content is built from
`resultOf yay nay = "PASSED" iff yay > nay` (so a yay-nay tie is
`FAILED`), and the produced result string depends only on the yay and nay
counts, never on abstentions or non-voters. -/
theorem C2_strict_majority (s : AppState) (freshId freshTs tid : String) (td : Doc)
    (htid : s.current_vote_target_id = some tid) (hne : tid ≠ "")
    (hdoc : get_document_by_id s.mun_documents (some tid) = some td) :
    (finalize_current_vote freshId freshTs s).1.mun_documents
      = s.mun_documents ++
        [vote_result_doc freshId freshTs (pyStr td.title) s.current_vote_tally] ∧
    (∀ y n : Nat, (resultOf y n = "PASSED" ↔ n < y) ∧ (resultOf y n = "FAILED" ↔ y ≤ n)) ∧
    (∀ n : Nat, resultOf n n = "FAILED") ∧
    (∀ t u : Tally, t.yay = u.yay → t.nay = u.nay →
      resultOf t.yay t.nay = resultOf u.yay u.nay) := by
  refine ⟨?_, ?_, ?_, ?_⟩
  · rw [finalize_current_vote_active s freshId freshTs tid td htid hne hdoc]
  · intro y n
    unfold resultOf
    by_cases h : n < y
    · simp [h]
    · simp [h]
      omega
  · intro n
    unfold resultOf
    simp
  · intro t u hy hn
    rw [hy, hn]

/-- C4: during one active vote, only the first `cast_ballot` by a voter
succeeds and records a ballot; every later cast by the same voter fails with
the already-voted feedback and leaves the tally and the voter set
unchanged. -/
theorem C4_vote_once (s : AppState) (d v tid f1 t1 f2 t2 : String) (td : Doc)
    (hauth : authRejects d = false)
    (htid : s.current_vote_target_id = some tid) (hne : tid ≠ "")
    (hdoc : get_document_by_id s.mun_documents (some tid) = some td) :
    (d ∉ s.current_vote_tally.voters → (v = "yay" ∨ v = "nay" ∨ v = "abstain") →
      handle_mun_submission (some d) (voteData v) f1 t1 s
        = ({ s with current_vote_tally :=
              { s.current_vote_tally.bump v with
                  voters := insert d s.current_vote_tally.voters } },
          [Emit.feedbackCaller ("Vote recorded: " ++ v.toUpper ++ " on " ++ pyStr td.title),
           Emit.voteTallyUpdate
             { target_id := tid
               target_title := td.title
               voter_count := (insert d s.current_vote_tally.voters).card
               total_delegates := VALID_DELEGATES.length }]) ∧
      d ∈ (handle_mun_submission (some d) (voteData v) f1 t1 s).1.current_vote_tally.voters ∧
      (∀ dat : SData, dat.type = some "vote" →
        handle_mun_submission (some d) dat f2 t2
            (handle_mun_submission (some d) (voteData v) f1 t1 s).1
          = ((handle_mun_submission (some d) (voteData v) f1 t1 s).1,
             [Emit.feedbackCaller "You have already cast your vote."]))) ∧
    (d ∈ s.current_vote_tally.voters →
      handle_mun_submission (some d) (voteData v) f1 t1 s
        = (s, [Emit.feedbackCaller "You have already cast your vote."])) := by
  constructor
  · intro hnv hv
    have hsucc := cast_ballot_success s d v tid f1 t1 td hauth htid hne hdoc hnv hv
    refine ⟨hsucc, ?_, ?_⟩
    · rw [hsucc]
      exact Finset.mem_insert_self d _
    · intro dat hty
      rw [hsucc]
      exact cast_ballot_already_voted _ d tid f2 t2 td dat hauth hty htid hne hdoc
        (Finset.mem_insert_self d _)
  · intro hv
    exact cast_ballot_already_voted s d tid f1 t1 td (voteData v) hauth rfl htid hne hdoc hv

/-- C9: the tally-delta broadcast after a successful ballot cast is a function
only of the target identification, the voter count, and the eligible total:
two casts in two arbitrary vote states with the same aggregates broadcast the
same payload, regardless of who voted what, and the payload carries no ballot
contents. -/
theorem C9_tally_broadcast_anonymous (s1 s2 : AppState)
    (d1 d2 v1 v2 tid1 tid2 f1 t1 f2 t2 : String) (td1 td2 : Doc)
    (hauth1 : authRejects d1 = false) (hauth2 : authRejects d2 = false)
    (htid1 : s1.current_vote_target_id = some tid1) (hne1 : tid1 ≠ "")
    (hdoc1 : get_document_by_id s1.mun_documents (some tid1) = some td1)
    (hnv1 : d1 ∉ s1.current_vote_tally.voters)
    (hv1 : v1 = "yay" ∨ v1 = "nay" ∨ v1 = "abstain")
    (htid2 : s2.current_vote_target_id = some tid2) (hne2 : tid2 ≠ "")
    (hdoc2 : get_document_by_id s2.mun_documents (some tid2) = some td2)
    (hnv2 : d2 ∉ s2.current_vote_tally.voters)
    (hv2 : v2 = "yay" ∨ v2 = "nay" ∨ v2 = "abstain")
    (heqtid : tid1 = tid2) (heqtitle : td1.title = td2.title)
    (heqcount : (insert d1 s1.current_vote_tally.voters).card
      = (insert d2 s2.current_vote_tally.voters).card) :
    (handle_mun_submission (some d1) (voteData v1) f1 t1 s1).2.filter Emit.isBroadcast
      = (handle_mun_submission (some d2) (voteData v2) f2 t2 s2).2.filter Emit.isBroadcast ∧
    tallyPayloads (handle_mun_submission (some d1) (voteData v1) f1 t1 s1).2
      = [{ target_id := tid1
           target_title := td1.title
           voter_count := (insert d1 s1.current_vote_tally.voters).card
           total_delegates := VALID_DELEGATES.length }] := by
  rw [cast_ballot_success s1 d1 v1 tid1 f1 t1 td1 hauth1 htid1 hne1 hdoc1 hnv1 hv1,
    cast_ballot_success s2 d2 v2 tid2 f2 t2 td2 hauth2 htid2 hne2 hdoc2 hnv2 hv2]
  constructor
  · simp [tallyPayloads, Emit.isBroadcast, heqtid, heqtitle, heqcount]
  · simp [tallyPayloads]

/-- Pushing `String.data` through string append. -/
theorem data_append_str (a b : String) : (a ++ b).data = a.data ++ b.data := rfl

/-- C10: both finalize trigger paths produce the same state; the single
appended `vote_result` document is trigger-independent, and its body always
contains the fixed header text `Auto-Closed after 30s` — also when the
finalize came from the manual moderator action. -/
theorem C10_auto_closed_header (s : AppState) (tid f1 t1 : String) (td : Doc)
    (htid : s.current_vote_target_id = some tid) (hne : tid ≠ "")
    (hdoc : get_document_by_id s.mun_documents (some tid) = some td) :
    (handle_moderator_action (some "admin") finalizeData f1 t1 s).1
      = (auto_finalize_vote f1 t1 s).1 ∧
    (auto_finalize_vote f1 t1 s).1.mun_documents
      = s.mun_documents ++
        [vote_result_doc f1 t1 (pyStr td.title) s.current_vote_tally] ∧
    (∀ (tt : String) (y n a : Nat), ∃ pre post : List Char,
      (result_content tt y n a).data = pre ++ ("Auto-Closed after 30s".data ++ post)) := by
  refine ⟨?_, ?_, ?_⟩
  · rw [moderator_finalize_active s f1 t1 tid td htid hne hdoc,
      auto_finalize_vote_active s f1 t1 tid htid hne,
      finalize_current_vote_active s f1 t1 tid td htid hne hdoc]
  · rw [auto_finalize_vote_active s f1 t1 tid htid hne,
      finalize_current_vote_active s f1 t1 tid td htid hne hdoc]
  · intro tt y n a
    refine ⟨("VOTE ON: " ++ tt ++ "\n" ++ "--- FINAL RESULT (").data, ?_, ?_⟩
    · exact (") ---\n" ++ "Result: " ++ resultOf y n ++ " ("
        ++ (if resultOf y n = "PASSED" then "Passed" else "Failed")
        ++ " by simple majority)\n\n" ++ "Yay Votes: " ++ toString y ++ "\n"
        ++ "Nay Votes: " ++ toString n ++ "\n" ++ "Abstain Votes: " ++ toString a ++ "\n"
        ++ "Total Votes Cast: " ++ toString (y + n + a) ++ "\n").data
    · unfold result_content
      rw [show (toString VOTE_DURATION_SECONDS) = "30" from by decide]
      simp only [data_append_str, List.append_assoc]
      simp [List.cons_append]

theorem tallyOkAmended_empty : tallyOkAmended emptyTally := by decide

theorem tallyOkAmended_insert (t : Tally) (d v : String)
    (h : tallyOkAmended t)
    (hd : d ∈ VALID_DELEGATES ∨ d = ADMIN_USER)
    (hnv : d ∉ t.voters)
    (hv : v = "yay" ∨ v = "nay" ∨ v = "abstain") :
    tallyOkAmended { t.bump v with voters := insert d t.voters } := by
  obtain ⟨hsum, hsub, hcard⟩ := h
  have hdmem : d ∈ insert ADMIN_USER VALID_DELEGATES.toFinset := by
    rcases hd with hd | hd
    · exact Finset.mem_insert_of_mem (List.mem_toFinset.mpr hd)
    · simp [hd]
  have hsub2 : insert d t.voters ⊆ insert ADMIN_USER VALID_DELEGATES.toFinset :=
    Finset.insert_subset hdmem hsub
  have hcard2 : (insert d t.voters).card = t.voters.card + 1 :=
    Finset.card_insert_of_not_mem hnv
  refine ⟨?_, hsub2, ?_⟩
  · rcases hv with hv | hv | hv <;> simp [Tally.bump, hv, hcard2] <;> omega
  · calc (insert d t.voters).card ≤ (insert ADMIN_USER VALID_DELEGATES.toFinset).card :=
        Finset.card_le_card hsub2
      _ = VALID_DELEGATES.length + 1 := by decide

theorem tallyOkAmended_finalize (s : AppState) (fid fts : String)
    (h : tallyOkAmended s.current_vote_tally) :
    tallyOkAmended (finalize_current_vote fid fts s).1.current_vote_tally := by
  unfold finalize_current_vote
  split
  · split
    · exact h
    · exact tallyOkAmended_empty
  · exact h

theorem tallyOkAmended_auto (s : AppState) (fid fts : String)
    (h : tallyOkAmended s.current_vote_tally) :
    tallyOkAmended (auto_finalize_vote fid fts s).1.current_vote_tally := by
  unfold auto_finalize_vote
  split
  · split
    · exact h
    · exact tallyOkAmended_finalize s fid fts h
  · exact h

theorem tallyOkAmended_mun (s : AppState) (u : Option String) (dat : SData)
    (fid fts : String)
    (h : tallyOkAmended s.current_vote_tally) :
    tallyOkAmended (handle_mun_submission u dat fid fts s).1.current_vote_tally := by
  rcases u with _ | d
  · simp only [handle_mun_submission]
    exact h
  · simp only [handle_mun_submission]
    by_cases ha : authRejects d = true
    · simp only [ha, if_true]
      exact h
    · simp only [Bool.not_eq_true] at ha
      simp only [ha, Bool.false_eq_true, if_false]
      by_cases hty : (dat.type == some "vote") = true
      · simp only [hty, if_true]
        rcases hm : s.current_vote_target_id with _ | tid
        · simp only []
          exact h
        · rcases hg : get_document_by_id s.mun_documents (some tid) with _ | td
          · exact h
          · simp only []
            by_cases hne2 : tid = ""
            · simp only [hne2, if_pos rfl]
              exact h
            · rw [if_neg hne2]
              by_cases hnv : d ∈ s.current_vote_tally.voters
              · rw [if_pos hnv]
                exact h
              · rw [if_neg hnv]
                by_cases hch : (dat.vote == some "yay" || dat.vote == some "nay"
                    || dat.vote == some "abstain") = true
                · simp only [hch, if_true]
                  have hd : d ∈ VALID_DELEGATES ∨ d = ADMIN_USER := by
                    unfold authRejects at ha
                    simp at ha
                    tauto
                  have hv : dat.vote.getD "" = "yay" ∨ dat.vote.getD "" = "nay"
                      ∨ dat.vote.getD "" = "abstain" := by
                    have h1 := hch
                    simp only [Bool.or_eq_true, beq_iff_eq] at h1
                    rcases h1 with (h1 | h1) | h1 <;> rw [h1] <;> simp
                  show tallyOkAmended
                    { s.current_vote_tally.bump (dat.vote.getD "") with
                        voters := insert d (s.current_vote_tally.bump (dat.vote.getD "")).voters }
                  rw [Tally.bump_voters]
                  exact tallyOkAmended_insert s.current_vote_tally d _ h hd hnv hv
                · simp only [hch, Bool.false_eq_true, if_false]
                  exact h
      · simp only [hty, Bool.false_eq_true, if_false]
        by_cases hrt : (dat.type == some "resolution" || dat.type == some "amendment") = true
        · simp only [hrt, if_true]
          exact h
        · simp only [hrt, Bool.false_eq_true, if_false]
          exact h

theorem tallyOkAmended_mod (s : AppState) (r : Option String) (mdat : MData)
    (fid fts : String)
    (h : tallyOkAmended s.current_vote_tally) :
    tallyOkAmended (handle_moderator_action r mdat fid fts s).1.current_vote_tally := by
  unfold handle_moderator_action
  split
  · exact h
  · split
    · split
      · exact h
      · split
        · exact h
        · split
          · exact h
          · exact tallyOkAmended_empty
    · split
      · split
        · exact h
        · split
          · exact h
          · exact tallyOkAmended_finalize _ fid fts (by
              split <;> exact h)
      · split
        · exact tallyOkAmended_empty
        · split
          · exact h
          · exact h

/-- C3_counterexample: the claimed bound `tally total ≤ len(VALID_DELEGATES)`
is not preserved by `cast_ballot`.  In the reachable active state `s_full`
(all seven roster members voted, invariant holds with 7 = 7), a further
ballot by the `ADMIN` account passes the authentication guard of
`handle_mun_submission` (it checks membership in `VALID_DELEGATES` *or*
equality with `ADMIN_USER`), is recorded, and pushes the total to
8 > 7 = `len(VALID_DELEGATES)`. -/
theorem C3_cex :
    tallyOk s_full.current_vote_tally ∧
    ¬ tallyOk (handle_mun_submission (some "ADMIN") (voteData "yay")
        "f1" "t1" s_full).1.current_vote_tally ∧
    (handle_mun_submission (some "ADMIN") (voteData "yay")
        "f1" "t1" s_full).1.current_vote_tally.voters.card
      = VALID_DELEGATES.length + 1 := by decide

/-- C3_amended: every operation preserves the vote-state invariant that each
participant is recorded at most once (the voter set), that
yay + nay + abstain equals the number of recorded voters, and that voters are
drawn from the roster plus the `ADMIN` account, so the total never exceeds
`len(VALID_DELEGATES) + 1` (the `+ 1` is forced by the counterexample: the
moderator account also passes the ballot guard). -/
theorem C3_amended_invariant (s : AppState) (u : Option String) (dat : SData)
    (r : Option String) (mdat : MData) (fid fts : String)
    (h : tallyOkAmended s.current_vote_tally) :
    tallyOkAmended (handle_mun_submission u dat fid fts s).1.current_vote_tally ∧
    tallyOkAmended (handle_moderator_action r mdat fid fts s).1.current_vote_tally ∧
    tallyOkAmended (auto_finalize_vote fid fts s).1.current_vote_tally ∧
    tallyOkAmended (finalize_current_vote fid fts s).1.current_vote_tally :=
  ⟨tallyOkAmended_mun s u dat fid fts h, tallyOkAmended_mod s r mdat fid fts h,
   tallyOkAmended_auto s fid fts h, tallyOkAmended_finalize s fid fts h⟩

set_option maxRecDepth 8192 in
/-- C5_counterexample: the `vote_result` body does NOT contain the claimed
explicit list of eligible-roster members who did not vote.  In the active
state `s0c` nobody has voted, so the claimed non-voter list would have to
name every roster member, yet the produced body does not even mention the
non-voter `"UK"`. -/
theorem C5_cex :
    (finalize_current_vote "f1" "t1" s0c).1.mun_documents
      = s0c.mun_documents ++ [vote_result_doc "f1" "t1" "Test Res" s0c.current_vote_tally] ∧
    "UK" ∈ VALID_DELEGATES ∧
    "UK" ∉ s0c.current_vote_tally.voters ∧
    containsStr (result_content "Test Res" 0 0 0) "UK" = false := by decide

/-- C5_amended: every finalize of an active vote appends exactly one
`vote_result` document whose body is `result_content`: it enumerates the
result, the per-choice counts, and the total ballots cast — and nothing else;
in particular the body carries no list of roster members who did not vote
(forced by the counterexample). -/
theorem C5_amended_result_body (s : AppState) (freshId freshTs tid : String) (td : Doc)
    (htid : s.current_vote_target_id = some tid) (hne : tid ≠ "")
    (hdoc : get_document_by_id s.mun_documents (some tid) = some td) :
    (finalize_current_vote freshId freshTs s).1.mun_documents
      = s.mun_documents ++
        [vote_result_doc freshId freshTs (pyStr td.title) s.current_vote_tally] ∧
    (vote_result_doc freshId freshTs (pyStr td.title) s.current_vote_tally).content
      = some (result_content (pyStr td.title) s.current_vote_tally.yay
          s.current_vote_tally.nay s.current_vote_tally.abstain) := by
  constructor
  · rw [finalize_current_vote_active s freshId freshTs tid td htid hne hdoc]
  · rfl

/-- C6_counterexample: a failing `cast_ballot` with an invalid choice is NOT
reported to the calling voter: in the active state `s0c`, the eligible voter
`"UK"` submitting the out-of-range choice `"maybe"` gets an empty emission
list back — the handler falls through both `return` statements without any
`emit` — while the claim demands a failure report to the caller. -/
theorem C6_cex :
    handle_mun_submission (some "UK")
        { type := some "vote", vote := some "maybe", title := none, content := none }
        "f1" "t1" s0c
      = (s0c, []) := by decide

/-- C6_amended: every failing `cast_ballot` mutates no state and triggers no
broadcast; the `NoActiveVote` and `AlreadyVoted` failures are reported to the
calling voter only, while an `InvalidChoice` failure is silently dropped with
no report at all (forced by the counterexample). -/
theorem C6_amended_failures (s : AppState) (d : String) (dat : SData) (fid fts : String)
    (hauth : authRejects d = false) (hty : dat.type = some "vote") :
    (s.current_vote_target_id = none →
      handle_mun_submission (some d) dat fid fts s
        = (s, [Emit.feedbackCaller "No formal vote is currently active."])) ∧
    (∀ tid td, s.current_vote_target_id = some tid → tid ≠ "" →
      get_document_by_id s.mun_documents (some tid) = some td →
      d ∈ s.current_vote_tally.voters →
      handle_mun_submission (some d) dat fid fts s
        = (s, [Emit.feedbackCaller "You have already cast your vote."])) ∧
    (∀ tid td, s.current_vote_target_id = some tid → tid ≠ "" →
      get_document_by_id s.mun_documents (some tid) = some td →
      d ∉ s.current_vote_tally.voters →
      dat.vote ≠ some "yay" → dat.vote ≠ some "nay" → dat.vote ≠ some "abstain" →
      handle_mun_submission (some d) dat fid fts s = (s, [])) ∧
    (∀ m : String, (Emit.feedbackCaller m).isBroadcast = false) := by
  refine ⟨?_, ?_, ?_, ?_⟩
  · intro htid
    exact cast_ballot_no_active s d fid fts dat hauth hty htid
  · intro tid td htid hne hdoc hv
    exact cast_ballot_already_voted s d tid fid fts td dat hauth hty htid hne hdoc hv
  · intro tid td htid hne hdoc hnv h1 h2 h3
    exact cast_ballot_invalid_choice s d tid fid fts td dat hauth hty htid hne hdoc hnv h1 h2 h3
  · intro m
    rfl

/-- C7_counterexample: a `start_vote` issued while a vote is active is not
always rejected with the `VoteAlreadyActive` message: in the active state
`s0c`, a `start_vote` naming the unknown target id `"NOPE"` is rejected with
the `InvalidTarget` message instead (the handler checks the target before the
already-active guard). -/
theorem C7_cex :
    handle_moderator_action (some "admin")
        { action := some "start_vote", target_id := some "NOPE", content := none }
        "f1" "t1" s0c
      = (s0c, [Emit.feedbackCaller "Invalid document ID or document type for voting."]) ∧
    Emit.feedbackCaller "Invalid document ID or document type for voting."
      ≠ Emit.feedbackCaller "Cannot start a new vote; one is already active." := by decide

/-- Characterization of a `start_vote` arriving while a vote is active: the
state is returned unchanged and the rejection feedback depends on whether the
requested target resolves to a votable document. -/
theorem start_vote_rejected (s : AppState) (mdat : MData) (tid fid fts : String)
    (htid : s.current_vote_target_id = some tid) (hne : tid ≠ "")
    (hact : mdat.action = some "start_vote") :
    handle_moderator_action (some "admin") mdat fid fts s
      = (s, [Emit.feedbackCaller
          (match get_document_by_id s.mun_documents mdat.target_id with
           | some td =>
             if (td.type == "resolution" || td.type == "amendment") = true
             then "Cannot start a new vote; one is already active."
             else "Invalid document ID or document type for voting."
           | none => "Invalid document ID or document type for voting.")]) := by
  unfold handle_moderator_action
  rw [hact]
  simp only [bne_self_eq_false, Bool.false_eq_true, if_false, beq_self_eq_true, if_true]
  rcases hg : get_document_by_id s.mun_documents mdat.target_id with _ | td
  · rfl
  · rw [htid]
    by_cases hk : (td.type == "resolution" || td.type == "amendment") = true
    · simp [hk, hne]
    · rw [Bool.not_eq_true] at hk
      simp [hk, hne]

/-- C7_amended: a `start_vote` issued while a vote is active always leaves the
in-flight vote — documents, target id, tally, voter set, timer — completely
unchanged; when its target resolves to a votable document it is rejected with
the `VoteAlreadyActive` message, and when the target does not resolve it is
rejected with the `InvalidTarget` message instead (forced by the
counterexample). -/
theorem C7_amended_no_preemption (s : AppState) (mdat : MData) (tid fid fts : String)
    (htid : s.current_vote_target_id = some tid) (hne : tid ≠ "")
    (hact : mdat.action = some "start_vote") :
    (handle_moderator_action (some "admin") mdat fid fts s).1 = s ∧
    (∀ td, get_document_by_id s.mun_documents mdat.target_id = some td →
      (td.type = "resolution" ∨ td.type = "amendment") →
      (handle_moderator_action (some "admin") mdat fid fts s).2
        = [Emit.feedbackCaller "Cannot start a new vote; one is already active."]) ∧
    (get_document_by_id s.mun_documents mdat.target_id = none →
      (handle_moderator_action (some "admin") mdat fid fts s).2
        = [Emit.feedbackCaller "Invalid document ID or document type for voting."]) := by
  have hr := start_vote_rejected s mdat tid fid fts htid hne hact
  refine ⟨by rw [hr], ?_, ?_⟩
  · intro td hsome hok
    rw [hr]
    have hk : (td.type == "resolution" || td.type == "amendment") = true := by
      rcases hok with h | h <;> simp [h]
    simp [hsome, hk]
  · intro hnone
    rw [hr]
    simp [hnone]

/-- C8_counterexample: a malformed document submission with a missing title
and body is NOT rejected: the delegate `"UK"` submitting a resolution with no
`title` and no `content` field still gets the document appended to the
ledger, with the missing fields stored as `None` — no `ValidationError`
exists anywhere in the handler. -/
theorem C8_cex :
    (handle_mun_submission (some "UK")
        { type := some "resolution", vote := none, title := none, content := none }
        "fresh-id" "ts" s0c).1.mun_documents
      = s0c.mun_documents ++
        [{ id := "fresh-id", type := "resolution", title := none, content := none,
           delegate := "UK", timestamp := "ts" }] := by decide

/-- C8_amended: every resolution/amendment submission from an authenticated
caller is appended to the ledger as a document carrying the supplied fresh id
and timestamp, whatever the title and body fields are — a submission with a
missing title or body is stored with those fields as `None` instead of
failing with a `ValidationError` (forced by the counterexample: no
validation exists). -/
theorem C8_amended_no_validation (s : AppState) (d : String) (dat : SData) (fid fts : String)
    (hauth : authRejects d = false)
    (hty : dat.type = some "resolution" ∨ dat.type = some "amendment") :
    handle_mun_submission (some d) dat fid fts s
      = ({ s with mun_documents := s.mun_documents ++
            [{ id := fid, type := dat.type.getD "", title := dat.title,
               content := dat.content, delegate := d, timestamp := fts }] },
         [Emit.feedbackCaller ((dat.type.getD "").capitalize ++ " \"" ++ pyStr dat.title
            ++ "\" submitted."),
          Emit.streamUpdate]) := by
  unfold handle_mun_submission
  rcases hty with hty | hty <;> rw [hty] <;> simp [hauth]

/-- Witness for C1 at the concrete active state `s0c`. -/
theorem C1_witness :
    (countVoteResults (handle_moderator_action (some "admin") finalizeData "f1" "t1" s0c).1.mun_documents
        = countVoteResults s0c.mun_documents + 1 ∧
      (handle_moderator_action (some "admin") finalizeData "f1" "t1" s0c).1.current_vote_target_id = none ∧
      countVoteResults (auto_finalize_vote "f2" "t2"
          (handle_moderator_action (some "admin") finalizeData "f1" "t1" s0c).1).1.mun_documents
        = countVoteResults s0c.mun_documents + 1 ∧
      countVoteResults (handle_moderator_action (some "admin") finalizeData "f2" "t2"
          (handle_moderator_action (some "admin") finalizeData "f1" "t1" s0c).1).1.mun_documents
        = countVoteResults s0c.mun_documents + 1) ∧
    (countVoteResults (auto_finalize_vote "f1" "t1" s0c).1.mun_documents
        = countVoteResults s0c.mun_documents + 1 ∧
      (auto_finalize_vote "f1" "t1" s0c).1.current_vote_target_id = none ∧
      countVoteResults (handle_moderator_action (some "admin") finalizeData "f2" "t2"
          (auto_finalize_vote "f1" "t1" s0c).1).1.mun_documents
        = countVoteResults s0c.mun_documents + 1 ∧
      countVoteResults (auto_finalize_vote "f2" "t2"
          (auto_finalize_vote "f1" "t1" s0c).1).1.mun_documents
        = countVoteResults s0c.mun_documents + 1) :=
  (C1_exactly_one_vote_result s0c "f1" "t1" "f2" "t2" "R1" res1).2 rfl (by decide) (by decide)

/-- Witness for C2 at the concrete active state `s0c`. -/
theorem C2_witness :
    ((finalize_current_vote "f1" "t1" s0c).1.mun_documents
      = s0c.mun_documents ++
        [vote_result_doc "f1" "t1" (pyStr res1.title) s0c.current_vote_tally]) ∧
    (∀ y n : Nat, (resultOf y n = "PASSED" ↔ n < y) ∧ (resultOf y n = "FAILED" ↔ y ≤ n)) ∧
    (∀ n : Nat, resultOf n n = "FAILED") ∧
    (∀ t u : Tally, t.yay = u.yay → t.nay = u.nay →
      resultOf t.yay t.nay = resultOf u.yay u.nay) :=
  C2_strict_majority s0c "f1" "t1" "R1" res1 rfl (by decide) (by decide)

/-- Witness for the amended C3 at the concrete active state `s0c`. -/
theorem C3_witness :
    tallyOkAmended (handle_mun_submission (some "UK") (voteData "yay")
      "f1" "t1" s0c).1.current_vote_tally ∧
    tallyOkAmended (handle_moderator_action (some "admin") finalizeData
      "f1" "t1" s0c).1.current_vote_tally ∧
    tallyOkAmended (auto_finalize_vote "f1" "t1" s0c).1.current_vote_tally ∧
    tallyOkAmended (finalize_current_vote "f1" "t1" s0c).1.current_vote_tally :=
  C3_amended_invariant s0c (some "UK") (voteData "yay") (some "admin") finalizeData
    "f1" "t1" (by decide)

/-- Witness for C4 at the concrete active state `s0c` with voter `"UK"`. -/
theorem C4_witness :
    ("UK" ∉ s0c.current_vote_tally.voters → ("yay" = "yay" ∨ "yay" = "nay" ∨ "yay" = "abstain") →
      handle_mun_submission (some "UK") (voteData "yay") "f1" "t1" s0c
        = ({ s0c with current_vote_tally :=
              { s0c.current_vote_tally.bump "yay" with
                  voters := insert "UK" s0c.current_vote_tally.voters } },
          [Emit.feedbackCaller ("Vote recorded: " ++ "yay".toUpper ++ " on " ++ pyStr res1.title),
           Emit.voteTallyUpdate
             { target_id := "R1"
               target_title := res1.title
               voter_count := (insert "UK" s0c.current_vote_tally.voters).card
               total_delegates := VALID_DELEGATES.length }]) ∧
      "UK" ∈ (handle_mun_submission (some "UK") (voteData "yay")
        "f1" "t1" s0c).1.current_vote_tally.voters ∧
      (∀ dat : SData, dat.type = some "vote" →
        handle_mun_submission (some "UK") dat "f2" "t2"
            (handle_mun_submission (some "UK") (voteData "yay") "f1" "t1" s0c).1
          = ((handle_mun_submission (some "UK") (voteData "yay") "f1" "t1" s0c).1,
             [Emit.feedbackCaller "You have already cast your vote."]))) ∧
    ("UK" ∈ s0c.current_vote_tally.voters →
      handle_mun_submission (some "UK") (voteData "yay") "f1" "t1" s0c
        = (s0c, [Emit.feedbackCaller "You have already cast your vote."])) :=
  C4_vote_once s0c "UK" "yay" "R1" "f1" "t1" "f2" "t2" res1 (by decide) rfl (by decide) (by decide)

/-- Witness for the amended C5 at the concrete active state `s0c`. -/
theorem C5_witness :
    ((finalize_current_vote "f1" "t1" s0c).1.mun_documents
      = s0c.mun_documents ++
        [vote_result_doc "f1" "t1" (pyStr res1.title) s0c.current_vote_tally]) ∧
    ((vote_result_doc "f1" "t1" (pyStr res1.title) s0c.current_vote_tally).content
      = some (result_content (pyStr res1.title) s0c.current_vote_tally.yay
          s0c.current_vote_tally.nay s0c.current_vote_tally.abstain)) :=
  C5_amended_result_body s0c "f1" "t1" "R1" res1 rfl (by decide) (by decide)

/-- Witness for the amended C6 at the concrete active state `s0c`. -/
theorem C6_witness :
    (s0c.current_vote_target_id = none →
      handle_mun_submission (some "UK") (voteData "maybe") "f1" "t1" s0c
        = (s0c, [Emit.feedbackCaller "No formal vote is currently active."])) ∧
    (∀ tid td, s0c.current_vote_target_id = some tid → tid ≠ "" →
      get_document_by_id s0c.mun_documents (some tid) = some td →
      "UK" ∈ s0c.current_vote_tally.voters →
      handle_mun_submission (some "UK") (voteData "maybe") "f1" "t1" s0c
        = (s0c, [Emit.feedbackCaller "You have already cast your vote."])) ∧
    (∀ tid td, s0c.current_vote_target_id = some tid → tid ≠ "" →
      get_document_by_id s0c.mun_documents (some tid) = some td →
      "UK" ∉ s0c.current_vote_tally.voters →
      (voteData "maybe").vote ≠ some "yay" → (voteData "maybe").vote ≠ some "nay" →
      (voteData "maybe").vote ≠ some "abstain" →
      handle_mun_submission (some "UK") (voteData "maybe") "f1" "t1" s0c = (s0c, [])) ∧
    (∀ m : String, (Emit.feedbackCaller m).isBroadcast = false) :=
  C6_amended_failures s0c "UK" (voteData "maybe") "f1" "t1" (by decide) rfl

/-- Witness for the amended C7 at the concrete active state `s0c`. -/
theorem C7_witness :
    ((handle_moderator_action (some "admin")
        { action := some "start_vote", target_id := some "NOPE", content := none }
        "f1" "t1" s0c).1 = s0c) ∧
    (∀ td, get_document_by_id s0c.mun_documents (some "NOPE") = some td →
      (td.type = "resolution" ∨ td.type = "amendment") →
      (handle_moderator_action (some "admin")
          { action := some "start_vote", target_id := some "NOPE", content := none }
          "f1" "t1" s0c).2
        = [Emit.feedbackCaller "Cannot start a new vote; one is already active."]) ∧
    (get_document_by_id s0c.mun_documents (some "NOPE") = none →
      (handle_moderator_action (some "admin")
          { action := some "start_vote", target_id := some "NOPE", content := none }
          "f1" "t1" s0c).2
        = [Emit.feedbackCaller "Invalid document ID or document type for voting."]) :=
  C7_amended_no_preemption s0c
    { action := some "start_vote", target_id := some "NOPE", content := none }
    "R1" "f1" "t1" rfl (by decide) rfl

/-- Witness for the amended C8: a resolution submission carrying a title and
a body from delegate `"UK"`. -/
theorem C8_witness :
    handle_mun_submission (some "UK")
        { type := some "resolution", vote := none, title := some "T", content := some "B" }
        "f1" "t1" s0c
      = ({ s0c with mun_documents := s0c.mun_documents ++
            [{ id := "f1", type := (some "resolution" : Option String).getD "",
               title := some "T", content := some "B", delegate := "UK", timestamp := "t1" }] },
         [Emit.feedbackCaller (((some "resolution" : Option String).getD "").capitalize
            ++ " \"" ++ pyStr (some "T") ++ "\" submitted."),
          Emit.streamUpdate]) :=
  C8_amended_no_validation s0c "UK"
    { type := some "resolution", vote := none, title := some "T", content := some "B" }
    "f1" "t1" (by decide) (Or.inl rfl)

/-- Witness for C9: two different voters casting different choices in `s0c`
produce the same broadcast payload. -/
theorem C9_witness :
    ((handle_mun_submission (some "UK") (voteData "yay") "f1" "t1" s0c).2.filter Emit.isBroadcast
      = (handle_mun_submission (some "FRANCE") (voteData "nay") "f2" "t2" s0c).2.filter Emit.isBroadcast) ∧
    (tallyPayloads (handle_mun_submission (some "UK") (voteData "yay") "f1" "t1" s0c).2
      = [{ target_id := "R1"
           target_title := res1.title
           voter_count := (insert "UK" s0c.current_vote_tally.voters).card
           total_delegates := VALID_DELEGATES.length }]) :=
  C9_tally_broadcast_anonymous s0c s0c "UK" "FRANCE" "yay" "nay" "R1" "R1"
    "f1" "t1" "f2" "t2" res1 res1
    (by decide) (by decide) rfl (by decide) (by decide) (by decide) (Or.inl rfl)
    rfl (by decide) (by decide) (by decide) (Or.inr (Or.inl rfl))
    rfl rfl (by decide)

/-- Witness for C10 at the concrete active state `s0c`. -/
theorem C10_witness :
    ((handle_moderator_action (some "admin") finalizeData "f1" "t1" s0c).1
      = (auto_finalize_vote "f1" "t1" s0c).1) ∧
    ((auto_finalize_vote "f1" "t1" s0c).1.mun_documents
      = s0c.mun_documents ++
        [vote_result_doc "f1" "t1" (pyStr res1.title) s0c.current_vote_tally]) ∧
    (∀ (tt : String) (y n a : Nat), ∃ pre post : List Char,
      (result_content tt y n a).data = pre ++ ("Auto-Closed after 30s".data ++ post)) :=
  C10_auto_closed_header s0c "R1" "f1" "t1" res1 rfl (by decide) (by decide)
